import Mathlib

/-!
Verification of the ingestion-and-enrichment pipeline of the
editorial-news-aggregator backend.

The Python modules under `backend/app` are shallowly embedded:

* Python `str` values are modelled as `PyStr := List Char` (a Python string
  is a sequence of Unicode code points; slicing, `len`, and iteration are
  all code-point based, exactly as for `List Char`).
* Python `int` is `Int` (or `Nat` where the source only ever stores
  non-negative counters), `float` averages are `Rat`.
* `hashlib.md5(...).hexdigest()` is embedded as a full executable MD5
  implementation over the UTF-8 byte sequence of the input string.
* Network / model-backend effects are embedded as explicit oracles
  (`Nat → AttemptOutcome` for successive HTTP attempts, per-article
  outcome fields for summarization backends), and `time.sleep` calls are
  reified as an explicit trace of sleep events.
-/

/-- Python strings as sequences of code points. -/
abbrev PyStr := List Char

/-- Coerce a Lean string literal to the Python-string model. -/
def pys (s : String) : PyStr := s.toList

/-- Python `str.lower()` (ASCII case mapping; all keywords and categories
compared in the source are ASCII). -/
def pyLower (s : PyStr) : PyStr := s.map Char.toLower

/-- Python whitespace characters recognised by `str.strip`/`str.split`
(ASCII subset; the claims only evaluate these on ASCII text). -/
def isPySpace (c : Char) : Bool :=
  c = ' ' || c = '\t' || c = '\n' || c = '\r' || c = '\x0b' || c = '\x0c'

/-- Python `str.strip()`: remove leading and trailing whitespace. -/
def pyStrip (s : PyStr) : PyStr :=
  ((s.dropWhile isPySpace).reverse.dropWhile isPySpace).reverse

/-- Python `needle in hay` substring test. -/
def pyIn (needle : PyStr) : PyStr → Bool
  | [] => needle.isEmpty
  | c :: rest => needle.isPrefixOf (c :: rest) || pyIn needle rest

/-- Python `any(k in hay for k in needles)`. -/
def pyInAny (needles : List PyStr) (hay : PyStr) : Bool :=
  needles.any (fun n => pyIn n hay)

/-- Python `str.split()` (no separator): split on whitespace runs,
discarding empty pieces. -/
def pySplitWs (s : PyStr) : List PyStr :=
  ((s.splitOnP (fun c => isPySpace c)).filter (fun w => !w.isEmpty))

/-- Python `' '.join(words)`. -/
def pyJoinSpace : List PyStr → PyStr
  | [] => []
  | [w] => w
  | w :: rest => w ++ ' ' :: pyJoinSpace rest

/-- Helper for `collapseWs`: `prevSpace` records whether the previous
character belonged to a whitespace run already replaced by one space. -/
def collapseWsAux (prevSpace : Bool) : PyStr → PyStr
  | [] => []
  | c :: rest =>
    if isPySpace c then
      if prevSpace then collapseWsAux true rest
      else ' ' :: collapseWsAux true rest
    else c :: collapseWsAux false rest

/-- `re.sub(r'\s+', ' ', s)`: collapse each whitespace run to one space. -/
def collapseWs (s : PyStr) : PyStr := collapseWsAux false s

/-- Python `str.startswith`. -/
def pyStartsWith (pre s : PyStr) : Bool := pre.isPrefixOf s

/-! ### UTF-8 encoding (`str.encode('utf-8')`) -/

/-- UTF-8 bytes of one code point. -/
def utf8Char (c : Char) : List Nat :=
  let n := c.toNat
  if n < 0x80 then [n]
  else if n < 0x800 then [0xC0 + n / 64, 0x80 + n % 64]
  else if n < 0x10000 then
    [0xE0 + n / 4096, 0x80 + (n / 64) % 64, 0x80 + n % 64]
  else
    [0xF0 + n / 262144, 0x80 + (n / 4096) % 64, 0x80 + (n / 64) % 64,
     0x80 + n % 64]

/-- UTF-8 byte sequence of a Python string. -/
def utf8Encode (s : PyStr) : List Nat := s.flatMap utf8Char

/-! ### MD5 (`hashlib.md5`)

Executable MD5 over a list of bytes, with 32-bit words represented as
`Nat` values reduced modulo `2 ^ 32`. -/

/-- 32-bit modulus. -/
def m32 : Nat := 4294967296

/-- Addition modulo `2 ^ 32`. -/
def add32 (a b : Nat) : Nat := (a + b) % m32

/-- Bitwise complement within 32 bits (operands are kept `< 2 ^ 32`). -/
def not32 (a : Nat) : Nat := (m32 - 1) - a % m32

/-- Left-rotate a 32-bit word by `s` bits. -/
def rotl32 (x s : Nat) : Nat :=
  Nat.lor ((Nat.shiftLeft x s) % m32) (Nat.shiftRight (x % m32) (32 - s))

/-- The 64 MD5 sine-derived constants (RFC 1321). -/
def md5K : List Nat :=
  [0xd76aa478, 0xe8c7b756, 0x242070db, 0xc1bdceee,
   0xf57c0faf, 0x4787c62a, 0xa8304613, 0xfd469501,
   0x698098d8, 0x8b44f7af, 0xffff5bb1, 0x895cd7be,
   0x6b901122, 0xfd987193, 0xa679438e, 0x49b40821,
   0xf61e2562, 0xc040b340, 0x265e5a51, 0xe9b6c7aa,
   0xd62f105d, 0x02441453, 0xd8a1e681, 0xe7d3fbc8,
   0x21e1cde6, 0xc33707d6, 0xf4d50d87, 0x455a14ed,
   0xa9e3e905, 0xfcefa3f8, 0x676f02d9, 0x8d2a4c8a,
   0xfffa3942, 0x8771f681, 0x6d9d6122, 0xfde5380c,
   0xa4beea44, 0x4bdecfa9, 0xf6bb4b60, 0xbebfbc70,
   0x289b7ec6, 0xeaa127fa, 0xd4ef3085, 0x04881d05,
   0xd9d4d039, 0xe6db99e5, 0x1fa27cf8, 0xc4ac5665,
   0xf4292244, 0x432aff97, 0xab9423a7, 0xfc93a039,
   0x655b59c3, 0x8f0ccc92, 0xffeff47d, 0x85845dd1,
   0x6fa87e4f, 0xfe2ce6e0, 0xa3014314, 0x4e0811a1,
   0xf7537e82, 0xbd3af235, 0x2ad7d2bb, 0xeb86d391]

/-- The per-round left-rotation amounts. -/
def md5S : List Nat :=
  [7, 12, 17, 22, 7, 12, 17, 22, 7, 12, 17, 22, 7, 12, 17, 22,
   5, 9, 14, 20, 5, 9, 14, 20, 5, 9, 14, 20, 5, 9, 14, 20,
   4, 11, 16, 23, 4, 11, 16, 23, 4, 11, 16, 23, 4, 11, 16, 23,
   6, 10, 15, 21, 6, 10, 15, 21, 6, 10, 15, 21, 6, 10, 15, 21]

/-- Pad a message to a multiple of 64 bytes with `0x80`, zeros, and the
bit length as a 64-bit little-endian tail. -/
def md5Pad (msg : List Nat) : List Nat :=
  let len := msg.length
  let r := (len + 1) % 64
  let zeros := if r ≤ 56 then 56 - r else 120 - r
  let bitLen := 8 * len
  msg ++ 0x80 :: List.replicate zeros 0 ++
    (List.range 8).map (fun i => (bitLen / 2 ^ (8 * i)) % 256)

/-- Split a list into chunks of `n` elements (`n > 0`). -/
def chunksOf (n : Nat) : List α → List (List α)
  | [] => []
  | x :: xs =>
    let rest := xs.take (n - 1)
    (x :: rest) :: chunksOf n (xs.drop (n - 1))
termination_by l => l.length
decreasing_by
  simp only [List.length_drop, List.length_cons]
  omega

/-- Decode a 64-byte block into 16 little-endian 32-bit words. -/
def md5Words (block : List Nat) : List Nat :=
  (List.range 16).map (fun j =>
    block.getD (4 * j) 0 + 256 * block.getD (4 * j + 1) 0 +
    65536 * block.getD (4 * j + 2) 0 + 16777216 * block.getD (4 * j + 3) 0)

/-- One MD5 round: mixes round index `i` into the register file. -/
def md5Round (w : List Nat) (st : Nat × Nat × Nat × Nat) (i : Nat) :
    Nat × Nat × Nat × Nat :=
  let (a, b, c, d) := st
  let (f, g) :=
    if i < 16 then
      (Nat.lor (Nat.land b c) (Nat.land (not32 b) d), i)
    else if i < 32 then
      (Nat.lor (Nat.land d b) (Nat.land (not32 d) c), (5 * i + 1) % 16)
    else if i < 48 then
      (Nat.xor (Nat.xor b c) d, (3 * i + 5) % 16)
    else
      (Nat.xor c (Nat.lor b (not32 d)), (7 * i) % 16)
  let f' := add32 (add32 (add32 f a) (md5K.getD i 0)) (w.getD g 0)
  (d, add32 b (rotl32 f' (md5S.getD i 0)), b, c)

/-- Process one 64-byte block into the running digest state. -/
def md5Block (st : Nat × Nat × Nat × Nat) (block : List Nat) :
    Nat × Nat × Nat × Nat :=
  let (a0, b0, c0, d0) := st
  let w := md5Words block
  let (a, b, c, d) := (List.range 64).foldl (md5Round w) (a0, b0, c0, d0)
  (add32 a0 a, add32 b0 b, add32 c0 c, add32 d0 d)

/-- Serialize a 32-bit word to 4 little-endian bytes. -/
def wordBytes (x : Nat) : List Nat :=
  [x % 256, (x / 256) % 256, (x / 65536) % 256, (x / 16777216) % 256]

/-- The 16 digest bytes of a byte message. -/
def md5Digest (msg : List Nat) : List Nat :=
  let blocks := chunksOf 64 (md5Pad msg)
  let (a, b, c, d) :=
    blocks.foldl md5Block (0x67452301, 0xefcdab89, 0x98badcfe, 0x10325476)
  wordBytes a ++ wordBytes b ++ wordBytes c ++ wordBytes d

/-- Lowercase hex digit. -/
def hexDigit (n : Nat) : Char :=
  if n < 10 then Char.ofNat (48 + n) else Char.ofNat (87 + n)

/-- `hashlib.md5(bytes).hexdigest()`: 32 lowercase hex characters. -/
def md5Hex (msg : List Nat) : PyStr :=
  (md5Digest msg).flatMap (fun b => [hexDigit (b / 16), hexDigit (b % 16)])

/-! ### `RSSScraperService._generate_content_hash` -/

/-- `_generate_content_hash(title, content)`: MD5 hex digest of
`title + content[:500]` encoded as UTF-8 (rss_scraper.py lines 512-516). -/
def generate_content_hash (title content : PyStr) : PyStr :=
  md5Hex (utf8Encode (title ++ content.take 500))

/-! ### Length of an MD5 hex digest -/

theorem md5Digest_length (msg : List Nat) : (md5Digest msg).length = 16 := by
  simp [md5Digest, wordBytes]

theorem flatMap_pair_length (f g : Nat → Char) (l : List Nat) :
    (l.flatMap (fun b => [f b, g b])).length = 2 * l.length := by
  induction l with
  | nil => simp
  | cons b t ih => simp [ih]; omega

theorem md5Hex_length (msg : List Nat) : (md5Hex msg).length = 32 := by
  simp only [md5Hex]
  rw [flatMap_pair_length, md5Digest_length]

/-- C6: `_generate_content_hash` is deterministic and depends only on the
title and the first 500 characters of the body: for equal titles and
bodies agreeing on their first 500 characters the digests are equal, and
the digest always has the fixed length 32. -/
theorem c6_content_hash_deterministic_fixed_length :
    (∀ t₁ b₁ t₂ b₂ : PyStr, t₁ = t₂ → b₁.take 500 = b₂.take 500 →
      generate_content_hash t₁ b₁ = generate_content_hash t₂ b₂) ∧
    (∀ t b : PyStr, (generate_content_hash t b).length = 32) := by
  refine ⟨?_, ?_⟩
  · intro t₁ b₁ t₂ b₂ ht hb
    subst ht
    simp only [generate_content_hash]
    rw [hb]
  · intro t b
    exact md5Hex_length _

/-- Witness for C6: two bodies of length 501 agreeing on their first 500
characters (but differing afterwards) receive the same digest, and a
concrete digest has length 32. -/
theorem c6_content_hash_deterministic_fixed_length_witness :
    (List.replicate 500 'x' ++ ['a']).take 500 =
      (List.replicate 500 'x' ++ ['b']).take 500 ∧
    generate_content_hash (pys "Title") (List.replicate 500 'x' ++ ['a']) =
      generate_content_hash (pys "Title") (List.replicate 500 'x' ++ ['b']) ∧
    (generate_content_hash (pys "Title") (pys "Body")).length = 32 := by
  have hlen : (500 : Nat) ≤ (List.replicate 500 'x').length :=
    le_of_eq (List.length_replicate ..).symm
  have h : (List.replicate 500 'x' ++ ['a']).take 500 =
      (List.replicate 500 'x' ++ ['b']).take 500 := by
    rw [List.take_append_of_le_length hlen,
        List.take_append_of_le_length hlen]
  exact ⟨h, c6_content_hash_deterministic_fixed_length.1 _ _ _ _ rfl h,
         c6_content_hash_deterministic_fixed_length.2 _ _⟩

/-- C10: the fingerprint concatenates title and truncated body with no
separator, so the boundary is not recoverable: moving a character from the
end of the title to the front of a body of length at most 499 leaves the
digest unchanged; hence distinct (title, body) pairs can produce the same
digest. -/
theorem c10_content_hash_boundary_shift :
    (∀ (t : PyStr) (c : Char) (b : PyStr), b.length ≤ 499 →
      generate_content_hash (t ++ [c]) b = generate_content_hash t (c :: b)) ∧
    ∃ p₁ p₂ : PyStr × PyStr, p₁ ≠ p₂ ∧
      generate_content_hash p₁.1 p₁.2 = generate_content_hash p₂.1 p₂.2 := by
  have main : ∀ (t : PyStr) (c : Char) (b : PyStr), b.length ≤ 499 →
      generate_content_hash (t ++ [c]) b = generate_content_hash t (c :: b) := by
    intro t c b hb
    simp only [generate_content_hash]
    have h1 : b.take 500 = b := List.take_of_length_le (by omega)
    have h2 : (c :: b).take 500 = c :: b :=
      List.take_of_length_le (by simp; omega)
    rw [h1, h2, List.append_assoc, List.singleton_append]
  refine ⟨main, ⟨(pys "ab", []), (pys "a", pys "b"), by decide, ?_⟩⟩
  have e1 : pys "a" ++ ['b'] = pys "ab" := by decide
  have e2 : ('b' :: ([] : PyStr)) = pys "b" := by decide
  have h := main (pys "a") 'b' [] (by decide)
  rw [e1, e2] at h
  exact h

/-- Witness for C10: shifting the boundary character at a concrete input. -/
theorem c10_content_hash_boundary_shift_witness :
    (pys "cd").length ≤ 499 ∧
    generate_content_hash (pys "a" ++ ['b']) (pys "cd") =
      generate_content_hash (pys "a") ('b' :: pys "cd") :=
  ⟨by decide, c10_content_hash_boundary_shift.1 (pys "a") 'b' (pys "cd")
    (by decide)⟩

/-! ### Source configuration (`app/models/source.py`, fetch-relevant fields)

`keyword_filters` / `exclude_keywords` are JSON list columns; a missing
value is Python-falsy exactly like the empty list, so both are modelled as
(possibly empty) lists. -/

structure SourceCfg where
  id : Nat
  source_type : String := "rss"
  language : String := "en"
  url : PyStr := []
  rss_url : PyStr := []
  editorial_rss : PyStr := []
  editorial_url : PyStr := []
  max_articles_per_fetch : Nat := 50
  keyword_filters : List PyStr := []
  exclude_keywords : List PyStr := []
  request_delay : Rat := 1
deriving DecidableEq

/-- `Source.fetch_url` property (source.py lines 142-152). -/
def SourceCfg.fetch_url (s : SourceCfg) : PyStr :=
  if s.source_type = "rss" ∧ s.rss_url ≠ [] then s.rss_url
  else if s.source_type = "rss" ∧ s.editorial_rss ≠ [] then s.editorial_rss
  else if s.source_type = "scrape" ∧ s.editorial_url ≠ [] then s.editorial_url
  else s.url

/-! ### Feed entries (`feedparser` output, fields read by the scraper)

A feed entry is modelled with the fields `_extract_article_data` and its
helpers read.  `content` / `summary_detail` / `summary` / `description`
are modelled as optional plain-text values (`entry.get` resolves lists and
value-dicts to their text; HTML tag stripping by BeautifulSoup is not
re-modelled — bodies are treated as already-plain text, which every claim
under verification uses them as).  `author` models the resolved author
value and `media_image` the first image URL found by
`_extract_image_url`; no claim depends on their internal fallback chains.
`parsed_date` is the result of `_parse_date` (`None` when every date field
is absent or unparseable).  `raises` models an unexpected exception thrown
while extracting this entry, which the source catches per entry. -/

structure Entry where
  title : PyStr := []
  link : PyStr := []
  tags : List PyStr := []
  entry_id : PyStr := []
  content? : Option PyStr := none
  summary_detail? : Option PyStr := none
  summary? : Option PyStr := none
  description? : Option PyStr := none
  author : Option PyStr := none
  media_image : Option PyStr := none
  parsed_date : Option Nat := none
  raises : Bool := false
deriving DecidableEq, Inhabited

/-- `_clean_text`: normalize whitespace and strip (html entity decoding is
the identity on the entity-free text the claims evaluate). -/
def clean_text (s : PyStr) : PyStr := pyStrip (collapseWs s)

/-- `_clean_html_content` on plain text: whitespace-chunk normalization
(tag and script removal by BeautifulSoup is the identity on plain text). -/
def clean_html_content (s : PyStr) : PyStr := pyStrip (collapseWs s)

/-- `_extract_content`: first non-empty of content, summary_detail,
summary, description, then HTML-cleaned and stripped
(rss_scraper.py lines 207-240). -/
def extract_content (e : Entry) : PyStr :=
  let raw :=
    match [e.content?, e.summary_detail?, e.summary?, e.description?].filterMap
        id |>.filter (fun v => !v.isEmpty) with
    | [] => []
    | v :: _ => v
  pyStrip (if raw.isEmpty then raw else clean_html_content raw)

/-- `_extract_excerpt`: summary, else description, HTML-cleaned, truncated
to 297 characters plus an ellipsis when longer than 300
(rss_scraper.py lines 242-258). -/
def extract_excerpt (e : Entry) : PyStr :=
  let raw :=
    match e.summary? with
    | some s => s
    | none => match e.description? with
              | some d => d
              | none => []
  let cleaned :=
    if raw.isEmpty then raw
    else
      let c := clean_html_content raw
      if c.length > 300 then c.take 297 ++ pys "..." else c
  pyStrip cleaned

/-- `_extract_category` (rss_scraper.py lines 275-295): default
`editorial`; the first tag whose lowered term contains one of
opinion/editorial/comment switches to `opinion` when it contains
`opinion`; a labeled title marker then forces `opinion` when the title
contains `opinion:`. -/
def extract_category (e : Entry) : PyStr :=
  let fromTags :=
    match e.tags.find? (fun t =>
        pyInAny [pys "opinion", pys "editorial", pys "comment"]
          (pyLower t)) with
    | some t => if pyIn (pys "opinion") (pyLower t) then pys "opinion"
                else pys "editorial"
    | none => pys "editorial"
  let titleLower := pyLower e.title
  if pyInAny [pys "opinion:", pys "editorial:", pys "comment:"] titleLower then
    if pyIn (pys "opinion:") titleLower then pys "opinion" else fromTags
  else fromTags

/-! ### Candidate article record (the dict built by
`_extract_article_data`) -/

structure ArticleDict where
  title : PyStr
  url : PyStr
  content : PyStr
  excerpt : PyStr
  author : Option PyStr
  category : PyStr
  published_date : Nat
  language : String
  word_count : Nat
  image_url : Option PyStr
  source_id : Nat
  content_hash : PyStr
  rss_entry_id : PyStr
  rss_tags : List PyStr
  is_editorial : Option Bool := none
  is_opinion : Option Bool := none
deriving DecidableEq

/-- `_extract_article_data` (rss_scraper.py lines 134-205): `None` when
the cleaned title or the link is empty, or when any unexpected exception
occurs (caught per entry); otherwise the populated candidate dict.
`now` is the current UTC time used when no date field parses. -/
def extract_article_data (e : Entry) (source : SourceCfg) (now : Nat) :
    Option ArticleDict :=
  if e.raises then none
  else
    let title := clean_text e.title
    if title.isEmpty then none
    else if e.link.isEmpty then none
    else
      let content := extract_content e
      some {
        title := title
        url := e.link
        content := content
        excerpt := extract_excerpt e
        author := e.author.map clean_text
        category := extract_category e
        published_date := e.parsed_date.getD now
        language := source.language
        word_count := if content.isEmpty then 0 else (pySplitWs content).length
        image_url := e.media_image
        source_id := source.id
        content_hash := generate_content_hash title content
        rss_entry_id := e.entry_id
        rss_tags := e.tags
      }

/-- `_extract_articles_from_feed` (rss_scraper.py lines 105-132): truncate
to `max_articles_per_fetch` entries and extract each independently,
skipping failures. -/
def extract_articles_from_feed (entries : List Entry) (source : SourceCfg)
    (now : Nat) : List ArticleDict :=
  (entries.take source.max_articles_per_fetch).filterMap
    (fun e => extract_article_data e source now)

/-! ### Editorial classifier (`_is_editorial_content`) -/

/-- The labeled-marker list of `_is_editorial_content`
(rss_scraper.py lines 434-438). -/
def editorial_indicators : List PyStr :=
  [pys "editorial:", pys "opinion:", pys "comment:", pys "analysis:",
   pys "editorial -", pys "opinion -", pys "comment -",
   pys "our view:", pys "editor\x27s note:", pys "editor\x27s pick:"]

/-- The generic title keywords (rss_scraper.py lines 445-448). -/
def editorial_keywords : List PyStr :=
  [pys "editorial", pys "opinion", pys "viewpoint", pys "perspective",
   pys "commentary", pys "analysis", pys "our view", pys "editor"]

/-- The URL keywords (rss_scraper.py lines 455-457). -/
def url_editorial_keywords : List PyStr :=
  [pys "editorial", pys "opinion", pys "comment", pys "viewpoint"]

/-- `_is_editorial_content` (rss_scraper.py lines 414-474). -/
def is_editorial_content (article : ArticleDict) (source : SourceCfg) :
    Bool :=
  if pyLower article.category = pys "editorial" ∨
      pyLower article.category = pys "opinion" ∨
      pyLower article.category = pys "comment" then
    true
  else if editorial_indicators.any
      (fun ind => pyIn ind (pyLower article.title)) then
    true
  else
    let title_has_editorial_keyword := editorial_keywords.any
      (fun k => pyIn k (pyLower article.title))
    let url_has_editorial := url_editorial_keywords.any
      (fun k => pyIn k (pyLower article.url))
    if source.keyword_filters ≠ [] ∧
        ¬ (source.keyword_filters.any (fun k =>
          pyIn (pyLower k) (pyLower article.title) ||
          pyIn (pyLower k) (pyLower article.content))) = true then
      false
    else if source.exclude_keywords ≠ [] ∧
        (source.exclude_keywords.any (fun k =>
          pyIn (pyLower k) (pyLower article.title) ||
          pyIn (pyLower k) (pyLower article.content))) = true then
      false
    else
      title_has_editorial_keyword || url_has_editorial

/-- `_filter_editorial_articles` (rss_scraper.py lines 392-412): keep the
classifier matches and set the editorial/opinion flags from the raw
category value. -/
def filter_editorial_articles (articles : List ArticleDict)
    (source : SourceCfg) : List ArticleDict :=
  (articles.filter (fun a => is_editorial_content a source)).map
    (fun a => { a with
      is_editorial := some (a.category = pys "editorial")
      is_opinion := some (a.category = pys "opinion") })

/-- The category produced by `_extract_category` is always `editorial` or
`opinion`. -/
theorem extract_category_cases (e : Entry) :
    extract_category e = pys "editorial" ∨
    extract_category e = pys "opinion" := by
  unfold extract_category
  by_cases h1 : pyInAny [pys "opinion:", pys "editorial:", pys "comment:"]
      (pyLower e.title) = true
  · by_cases h2 : pyIn (pys "opinion:") (pyLower e.title) = true
    · simp [h1, h2]
    · cases hf : List.find? (fun t =>
          pyInAny [pys "opinion", pys "editorial", pys "comment"]
            (pyLower t)) e.tags with
      | none => simp [h1, h2, hf]
      | some t =>
        by_cases h3 : pyIn (pys "opinion") (pyLower t) = true <;>
          simp [h1, h2, hf, h3]
  · cases hf : List.find? (fun t =>
        pyInAny [pys "opinion", pys "editorial", pys "comment"]
          (pyLower t)) e.tags with
    | none => simp [h1, hf]
    | some t =>
      by_cases h3 : pyIn (pys "opinion") (pyLower t) = true <;>
        simp [h1, hf, h3]

/-- A successful `_extract_article_data` stores `_extract_category` in the
category field. -/
theorem extract_article_data_category (e : Entry) (s : SourceCfg)
    (now : Nat) (a : ArticleDict)
    (h : extract_article_data e s now = some a) :
    a.category = extract_category e := by
  simp only [extract_article_data] at h
  split at h
  · exact absurd h (by simp)
  · split at h
    · exact absurd h (by simp)
    · split at h
      · exact absurd h (by simp)
      · cases h
        rfl

/-- C1: a candidate with no editorial/opinion/comment category and no
labeled title marker is rejected whenever the source declares a non-empty
keyword-include list and no include keyword occurs (case-insensitively) in
the title or the body — regardless of any generic editorial keyword such
as "editorial" appearing in the title. -/
theorem c1_keyword_include_rejects (a : ArticleDict) (s : SourceCfg)
    (hcat : pyLower a.category ≠ pys "editorial" ∧
      pyLower a.category ≠ pys "opinion" ∧
      pyLower a.category ≠ pys "comment")
    (hind : ∀ ind ∈ editorial_indicators,
      pyIn ind (pyLower a.title) = false)
    (hkf : s.keyword_filters ≠ [])
    (hmatch : ∀ kw ∈ s.keyword_filters,
      pyIn (pyLower kw) (pyLower a.title) = false ∧
      pyIn (pyLower kw) (pyLower a.content) = false) :
    is_editorial_content a s = false := by
  have h1 : ¬ (pyLower a.category = pys "editorial" ∨
      pyLower a.category = pys "opinion" ∨
      pyLower a.category = pys "comment") := by
    rintro (h | h | h)
    exacts [hcat.1 h, hcat.2.1 h, hcat.2.2 h]
  have h2 : editorial_indicators.any
      (fun ind => pyIn ind (pyLower a.title)) = false := by
    rw [List.any_eq_false]
    intro ind hmem
    simp [hind ind hmem]
  have h3 : s.keyword_filters.any (fun k =>
      pyIn (pyLower k) (pyLower a.title) ||
      pyIn (pyLower k) (pyLower a.content)) = false := by
    rw [List.any_eq_false]
    intro k hmem
    simp [(hmatch k hmem).1, (hmatch k hmem).2]
  simp [is_editorial_content, h1, h2, h3, hkf]

/-- Witness article for C1: empty category, a title containing the
generic keyword "editorial" but no labeled marker, and a body with no
occurrence of the single include keyword "climate". -/
def c1Article : ArticleDict where
  title := pys "Editorial thoughts on tariffs"
  url := pys "https://example.com/articles/1"
  content := pys "No matching word appears here"
  excerpt := []
  author := none
  category := []
  published_date := 0
  language := "en"
  word_count := 5
  image_url := none
  source_id := 1
  content_hash := []
  rss_entry_id := []
  rss_tags := []

/-- Witness source for C1: keyword-include list `["climate"]`. -/
def c1Source : SourceCfg where
  id := 1
  keyword_filters := [pys "climate"]

/-- Witness for C1 at a concrete candidate and source. -/
theorem c1_keyword_include_rejects_witness :
    pyIn (pys "editorial") (pyLower c1Article.title) = true ∧
    c1Source.keyword_filters = [pys "climate"] ∧
    is_editorial_content c1Article c1Source = false :=
  ⟨by decide, by decide,
   c1_keyword_include_rejects c1Article c1Source (by decide) (by decide)
     (by decide) (by decide)⟩

/-- C9: every candidate produced by `_extract_article_data` has category
`editorial` or `opinion` (the default is `editorial`), so the first check
of `_is_editorial_content` accepts every extracted candidate for every
source, before any keyword filter is consulted. -/
theorem c9_extracted_candidates_always_accepted (e : Entry) (s : SourceCfg)
    (now : Nat) (a : ArticleDict)
    (h : extract_article_data e s now = some a) :
    (a.category = pys "editorial" ∨ a.category = pys "opinion") ∧
    ∀ s2 : SourceCfg, is_editorial_content a s2 = true := by
  have hcat := extract_article_data_category e s now a h
  have hcases := extract_category_cases e
  rw [← hcat] at hcases
  refine ⟨hcases, ?_⟩
  intro s2
  have hlow : pyLower a.category = pys "editorial" ∨
      pyLower a.category = pys "opinion" := by
    rcases hcases with hc | hc <;> rw [hc]
    · left; decide
    · right; decide
  unfold is_editorial_content
  rcases hlow with hc | hc
  · rw [if_pos (Or.inl hc)]
  · rw [if_pos (Or.inr (Or.inl hc))]

/-- Witness entry for C9: no category tags, so the category defaults to
`editorial`. -/
def c9Entry : Entry where
  title := pys "A fine day for markets"
  link := pys "https://example.com/markets"
  description? := some (pys "Some plain description text")

/-- Witness source for C9. -/
def c9Source : SourceCfg where
  id := 2
  keyword_filters := [pys "climate"]

/-- Witness for C9: the concrete extracted candidate is accepted by the
classifier even though the source declares an include filter the article
does not match. -/
theorem c9_extracted_candidates_always_accepted_witness :
    (extract_article_data c9Entry c9Source 0).isSome = true ∧
    (extract_article_data c9Entry c9Source 0).map
      (fun a => is_editorial_content a c9Source) = some true := by
  cases hE : extract_article_data c9Entry c9Source 0 with
  | none => exact absurd hE (by decide)
  | some a =>
    refine ⟨rfl, ?_⟩
    have h :=
      (c9_extracted_candidates_always_accepted c9Entry c9Source 0 a hE).2
        c9Source
    simp [h]

/-- C7: extraction returns at most `max_articles_per_fetch` candidates;
an entry with an empty cleaned title, an empty link, or a per-entry
exception contributes no candidate and raises no error, and such an entry
never aborts extraction of the remaining entries. -/
theorem c7_extraction_safety (s : SourceCfg) (now : Nat) :
    (∀ entries : List Entry,
      (extract_articles_from_feed entries s now).length ≤
        s.max_articles_per_fetch) ∧
    (∀ e : Entry,
      (clean_text e.title).isEmpty = true ∨ e.link.isEmpty = true ∨
        e.raises = true →
      extract_article_data e s now = none) ∧
    (∀ (pre : List Entry) (e : Entry) (post : List Entry),
      extract_article_data e s now = none →
      (pre ++ e :: post).length ≤ s.max_articles_per_fetch →
      extract_articles_from_feed (pre ++ e :: post) s now =
        extract_articles_from_feed (pre ++ post) s now) := by
  refine ⟨?_, ?_, ?_⟩
  · intro entries
    unfold extract_articles_from_feed
    exact le_trans (List.length_filterMap_le _ _) (List.length_take_le _ _)
  · intro e h
    rcases h with h | h | h <;> simp [extract_article_data, h]
  · intro pre e post hnone hlen
    have hlen2 : (pre ++ post).length ≤ s.max_articles_per_fetch := by
      simp only [List.length_append, List.length_cons] at hlen ⊢
      omega
    unfold extract_articles_from_feed
    rw [List.take_of_length_le hlen, List.take_of_length_le hlen2]
    simp [List.filterMap_append, List.filterMap_cons, hnone]

/-- Witness source for C7. -/
def c7Source : SourceCfg where
  id := 3

/-- Witness entries for C7: a healthy entry, one raising an exception,
one with an all-whitespace title, one with no link, and a trailing
healthy entry. -/
def c7Entries : List Entry :=
  [{ title := pys "First article", link := pys "https://example.com/1" },
   { title := pys "Broken entry", link := pys "https://example.com/2",
     raises := true },
   { title := pys "   ", link := pys "https://example.com/3" },
   { title := pys "No link here", link := [] },
   { title := pys "Last article", link := pys "https://example.com/5" }]

/-- Witness for C7: the failing entry is skipped without dropping the
entries after it, and the output stays within the per-fetch cap. -/
theorem c7_extraction_safety_witness :
    extract_article_data (c7Entries.getD 1 default) c7Source 0 = none ∧
    (c7Entries.take 1 ++ (c7Entries.getD 1 default) ::
        c7Entries.drop 2).length ≤ c7Source.max_articles_per_fetch ∧
    extract_articles_from_feed
        (c7Entries.take 1 ++ (c7Entries.getD 1 default) ::
          c7Entries.drop 2) c7Source 0 =
      extract_articles_from_feed (c7Entries.take 1 ++ c7Entries.drop 2)
        c7Source 0 ∧
    (extract_articles_from_feed c7Entries c7Source 0).length ≤
      c7Source.max_articles_per_fetch :=
  ⟨(c7_extraction_safety c7Source 0).2.1 _ (Or.inr (Or.inr (by decide))),
   by decide,
   (c7_extraction_safety c7Source 0).2.2 (c7Entries.take 1)
     (c7Entries.getD 1 default) (c7Entries.drop 2)
     ((c7_extraction_safety c7Source 0).2.1 _ (Or.inr (Or.inr (by decide))))
     (by decide),
   (c7_extraction_safety c7Source 0).1 c7Entries⟩

/-! ### Source health tracking (`Source.update_health_status`,
source.py lines 162-187)

The mutable health fields of a `Source` row.  `error_count` is only ever
reset to 0 or incremented by `update_health_status` (its column default is
0), so it is modelled as `Nat`.  `func.now()` is passed in as `now`. -/

structure SourceHealth where
  health_status : String := "healthy"
  error_count : Nat := 0
  last_successful_fetch : Option Nat := none
  last_error : Option String := none
  total_successful_fetches : Nat := 0
  total_failed_fetches : Nat := 0
  success_rate : Rat := 1
deriving DecidableEq

/-- The success/failure half of `update_health_status(is_success,
error_message)` (source.py lines 164-182). -/
def update_health_core (s : SourceHealth) (is_success : Bool)
    (error_message : Option String) (now : Nat) : SourceHealth :=
  if is_success then
    let ec := 0
    { s with
      last_successful_fetch := some now
      total_successful_fetches := s.total_successful_fetches + 1
      error_count := ec
      last_error := none
      health_status := if ec = 0 then "healthy" else s.health_status }
  else
    let ec := s.error_count + 1
    { s with
      total_failed_fetches := s.total_failed_fetches + 1
      error_count := ec
      last_error := error_message
      health_status :=
        if ec ≥ 5 then "error"
        else if ec ≥ 2 then "warning"
        else s.health_status }

/-- The success-rate recomputation at the end of `update_health_status`
(source.py lines 184-187). -/
def update_success_rate (s : SourceHealth) : SourceHealth :=
  let total := s.total_successful_fetches + s.total_failed_fetches
  if total > 0 then
    { s with success_rate :=
        (s.total_successful_fetches : Rat) / (total : Rat) }
  else s

/-- `update_health_status(is_success, error_message)` with `func.now()`
passed in as `now`. -/
def update_health_status (s : SourceHealth) (is_success : Bool)
    (error_message : Option String) (now : Nat) : SourceHealth :=
  update_success_rate (update_health_core s is_success error_message now)

/-- Fold a sequence of failure outcomes into the health state. -/
def apply_failures (s : SourceHealth) (msgs : List (Option String))
    (now : Nat) : SourceHealth :=
  msgs.foldl (fun st m => update_health_status st false m now) s

theorem update_success_rate_error_count (s : SourceHealth) :
    (update_success_rate s).error_count = s.error_count := by
  unfold update_success_rate
  dsimp only
  split <;> rfl

theorem update_success_rate_health_status (s : SourceHealth) :
    (update_success_rate s).health_status = s.health_status := by
  unfold update_success_rate
  dsimp only
  split <;> rfl

theorem update_health_failure_fields (s : SourceHealth)
    (m : Option String) (now : Nat) :
    (update_health_status s false m now).error_count = s.error_count + 1 ∧
    (update_health_status s false m now).health_status =
      (if s.error_count + 1 ≥ 5 then "error"
       else if s.error_count + 1 ≥ 2 then "warning"
       else s.health_status) := by
  unfold update_health_status
  rw [update_success_rate_error_count, update_success_rate_health_status]
  exact ⟨rfl, rfl⟩

theorem apply_failures_error_count (s : SourceHealth)
    (msgs : List (Option String)) (now : Nat) :
    (apply_failures s msgs now).error_count =
      s.error_count + msgs.length := by
  induction msgs generalizing s with
  | nil => simp [apply_failures]
  | cons m rest ih =>
    have h := (update_health_failure_fields s m now).1
    simp only [apply_failures, List.foldl_cons] at *
    rw [ih, h, List.length_cons]
    omega

/-- C3: health status is a deterministic function of the consecutive
error count: a success resets the count to 0 and the status to healthy; a
failure increments the count, giving `error` at count ≥ 5, `warning` at
count 2-4, and leaving the status unchanged at count 1; five consecutive
failures always yield `error`. -/
theorem c3_health_status_deterministic (s : SourceHealth)
    (m : Option String) (now : Nat) :
    ((update_health_status s true none now).error_count = 0 ∧
     (update_health_status s true none now).health_status = "healthy") ∧
    ((update_health_status s false m now).error_count = s.error_count + 1 ∧
     ((update_health_status s false m now).error_count ≥ 5 →
        (update_health_status s false m now).health_status = "error") ∧
     (2 ≤ (update_health_status s false m now).error_count →
        (update_health_status s false m now).error_count ≤ 4 →
        (update_health_status s false m now).health_status = "warning") ∧
     ((update_health_status s false m now).error_count = 1 →
        (update_health_status s false m now).health_status =
          s.health_status)) ∧
    (∀ msgs : List (Option String), msgs.length = 5 →
      (apply_failures s msgs now).health_status = "error") := by
  obtain ⟨hec, hst⟩ := update_health_failure_fields s m now
  refine ⟨⟨?_, ?_⟩, ⟨hec, ?_, ?_, ?_⟩, ?_⟩
  · unfold update_health_status
    rw [update_success_rate_error_count]
    rfl
  · unfold update_health_status
    rw [update_success_rate_health_status]
    rfl
  · intro h
    rw [hec] at h
    rw [hst, if_pos h]
  · intro h2 h4
    rw [hec] at h2 h4
    rw [hst, if_neg (by omega), if_pos (by omega)]
  · intro h1
    rw [hec] at h1
    rw [hst, if_neg (by omega), if_neg (by omega)]
  · intro msgs hlen
    rcases msgs with _ | ⟨a, _ | ⟨b, _ | ⟨c, _ | ⟨d, _ | ⟨e, _ | ⟨f, t⟩⟩⟩⟩⟩⟩ <;>
      simp only [List.length_nil, List.length_cons] at hlen <;> try omega
    have h4 : (apply_failures s [a, b, c, d] now).error_count =
        s.error_count + 4 := by
      rw [apply_failures_error_count]
      rfl
    have h5 : apply_failures s [a, b, c, d, e] now =
        update_health_status (apply_failures s [a, b, c, d] now) false e
          now := by
      simp only [apply_failures, List.foldl_cons, List.foldl_nil]
    rw [h5,
      (update_health_failure_fields (apply_failures s [a, b, c, d] now) e
        now).2, h4, if_pos (by omega)]

/-- Witness for C3 at concrete health states: a success yields healthy
with count 0; from count 1 a failure yields count 2 and `warning`; from
count 0 a single failure leaves the (healthy) status unchanged; five
failures from the default state yield `error`. -/
theorem c3_health_status_deterministic_witness :
    (update_health_status {} true none 7).error_count = 0 ∧
    (update_health_status {} true none 7).health_status = "healthy" ∧
    (update_health_status { error_count := 1 } false (some "boom")
        7).health_status = "warning" ∧
    (update_health_status {} false (some "boom") 7).health_status =
      "healthy" ∧
    (List.replicate 5 (some "boom")).length = 5 ∧
    (apply_failures {} (List.replicate 5 (some "boom")) 7).health_status =
      "error" :=
  ⟨(c3_health_status_deterministic {} none 7).1.1,
   (c3_health_status_deterministic {} none 7).1.2,
   (c3_health_status_deterministic { error_count := 1 } (some "boom")
      7).2.1.2.2.1 (by decide) (by decide),
   (c3_health_status_deterministic {} (some "boom") 7).2.1.2.2.2
     (by decide),
   by decide,
   (c3_health_status_deterministic {} none 7).2.2
     (List.replicate 5 (some "boom")) (by decide)⟩

/-! ### Feed fetching with retry (`fetch_feed`, rss_scraper.py lines
35-103)

One HTTP attempt (the body of the `try` block) either succeeds with a
parsed feed or raises: `raise_for_status` raises for any status ≥ 400
(an `HTTPError`, which is a `requests.RequestException`), timeouts and
connection failures also raise `RequestException` subclasses, and any
other exception lands in the second `except` branch.  The oracle maps the
attempt index to its outcome.  `time.sleep` calls are recorded as an
explicit trace of sleep events. -/

inductive AttemptOutcome where
  | ok (feed : List Entry)
  | httpError (code : Nat)
  | timeout
  | connError
  | unexpected (msg : String)
deriving DecidableEq

/-- Whether the attempt raised (anything except a successful parse). -/
def attemptFails : AttemptOutcome → Bool
  | .ok _ => false
  | _ => true

/-- The exception text (the library-generated message is abstracted). -/
def exnText : AttemptOutcome → String
  | .ok _ => ""
  | .httpError c => "HTTP status " ++ toString c
  | .timeout => "timed out"
  | .connError => "connection error"
  | .unexpected m => m

/-- The `last_error` message recorded for a failed attempt
(rss_scraper.py lines 75 and 82). -/
def attemptError (o : AttemptOutcome) (attempt : Nat) : String :=
  match o with
  | .unexpected m =>
    "Unexpected error (attempt " ++ toString (attempt + 1) ++ "): " ++ m
  | o => "Request failed (attempt " ++ toString (attempt + 1) ++ "): " ++
      exnText o

structure FetchLoopResult where
  feed_data : Option (List Entry)
  last_error : Option String
  sleeps : List Nat
  attempts : Nat
deriving DecidableEq

/-- The retry loop `for attempt in range(settings.MAX_RETRIES)`
(rss_scraper.py lines 60-86): stop on the first success; on failure
record the message and, unless this was the final attempt, sleep
`2 ** attempt` before retrying.  `sleeps` records those backoff sleeps. -/
def fetch_retry_loop (oracle : Nat → AttemptOutcome) (attempt : Nat)
    (lastError : Option String) : Nat → FetchLoopResult
  | 0 => ⟨none, lastError, [], 0⟩
  | r + 1 =>
    match oracle attempt with
    | .ok feed => ⟨some feed, lastError, [], 1⟩
    | o =>
      let msg := attemptError o attempt
      if r = 0 then ⟨none, some msg, [], 1⟩
      else
        let rest := fetch_retry_loop oracle (attempt + 1) (some msg) r
        ⟨rest.feed_data, rest.last_error, 2 ^ attempt :: rest.sleeps,
         rest.attempts + 1⟩

/-- A sleep event of the whole fetch: the configured courtesy delay or an
exponential backoff delay. -/
inductive SleepEvent where
  | courtesy (d : Rat)
  | backoff (n : Nat)
deriving DecidableEq

structure FetchResult where
  success : Bool
  articles : List ArticleDict
  error : Option String
  sleeps : List SleepEvent
  attempts : Nat
deriving DecidableEq

/-- `fetch_feed(source)` (rss_scraper.py lines 35-103): empty-URL guard,
one courtesy sleep when `request_delay` is truthy, the retry loop, then
extraction and editorial filtering of the parsed feed. -/
def fetch_feed (source : SourceCfg) (oracle : Nat → AttemptOutcome)
    (maxRetries : Nat) (now : Nat) : FetchResult :=
  if source.fetch_url.isEmpty then
    ⟨false, [], some "No feed URL configured", [], 0⟩
  else
    let courtesy : List SleepEvent :=
      if source.request_delay ≠ 0 then [.courtesy source.request_delay]
      else []
    let loopRes := fetch_retry_loop oracle 0 none maxRetries
    let allSleeps := courtesy ++ loopRes.sleeps.map SleepEvent.backoff
    match loopRes.feed_data with
    | none =>
      ⟨false, [], some (loopRes.last_error.getD "Failed to fetch feed"),
       allSleeps, loopRes.attempts⟩
    | some feed =>
      let articles := extract_articles_from_feed feed source now
      let filtered := filter_editorial_articles articles source
      ⟨true, filtered, none, allSleeps, loopRes.attempts⟩

theorem fetch_retry_loop_ok (oracle : Nat → AttemptOutcome)
    (a : Nat) (le : Option String) (r : Nat) (feed : List Entry)
    (h : oracle a = .ok feed) :
    fetch_retry_loop oracle a le (r + 1) = ⟨some feed, le, [], 1⟩ := by
  simp [fetch_retry_loop, h]

theorem fetch_retry_loop_fail (oracle : Nat → AttemptOutcome)
    (a : Nat) (le : Option String) (r : Nat)
    (h : attemptFails (oracle a) = true) :
    fetch_retry_loop oracle a le (r + 1) =
      (if r = 0 then ⟨none, some (attemptError (oracle a) a), [], 1⟩
       else
        let rest := fetch_retry_loop oracle (a + 1)
          (some (attemptError (oracle a) a)) r
        ⟨rest.feed_data, rest.last_error, 2 ^ a :: rest.sleeps,
         rest.attempts + 1⟩) := by
  cases ho : oracle a with
  | ok f => rw [ho] at h; simp [attemptFails] at h
  | httpError c => simp [fetch_retry_loop, ho]
  | timeout => simp [fetch_retry_loop, ho]
  | connError => simp [fetch_retry_loop, ho]
  | unexpected m => simp [fetch_retry_loop, ho]

/-- General shape of the retry loop when the first success is at relative
attempt `k`: the loop makes `k + 1` attempts, all `k` failures alike are
retried (whatever their kind, including HTTP 4xx), and the backoff sleeps
are `2 ^ a, ..., 2 ^ (a + k - 1)`. -/
theorem fetch_retry_loop_first_success (oracle : Nat → AttemptOutcome) :
    ∀ (k r a : Nat) (le : Option String) (feed : List Entry),
      (∀ j, j < k → attemptFails (oracle (a + j)) = true) →
      oracle (a + k) = .ok feed → k < r →
      (fetch_retry_loop oracle a le r).attempts = k + 1 ∧
      (fetch_retry_loop oracle a le r).feed_data = some feed ∧
      (fetch_retry_loop oracle a le r).sleeps =
        (List.range k).map (fun j => 2 ^ (a + j)) := by
  intro k
  induction k with
  | zero =>
    intro r a le feed _ hok hr
    obtain ⟨r', rfl⟩ : ∃ r', r = r' + 1 := ⟨r - 1, by omega⟩
    rw [fetch_retry_loop_ok oracle a le r' feed (by simpa using hok)]
    simp
  | succ k ih =>
    intro r a le feed hfail hok hr
    obtain ⟨r', rfl⟩ : ∃ r', r = r' + 1 := ⟨r - 1, by omega⟩
    have h0 : attemptFails (oracle a) = true := by
      simpa using hfail 0 (by omega)
    rw [fetch_retry_loop_fail oracle a le r' h0, if_neg (by omega)]
    dsimp only
    have hfail' : ∀ j, j < k →
        attemptFails (oracle (a + 1 + j)) = true := by
      intro j hj
      have := hfail (j + 1) (by omega)
      rwa [show a + (j + 1) = a + 1 + j by omega] at this
    have hok' : oracle (a + 1 + k) = .ok feed := by
      rwa [show a + 1 + k = a + (k + 1) by omega]
    obtain ⟨ha, hf, hs⟩ :=
      ih r' (a + 1) (some (attemptError (oracle a) a)) feed hfail' hok'
        (by omega)
    refine ⟨by omega, by simpa using hf, ?_⟩
    simp only [hs, List.range_succ_eq_map, List.map_cons, List.map_map]
    rw [Nat.add_zero]
    congr 1
    apply List.map_congr_left
    intro j _
    simp only [Function.comp_apply]
    congr 1
    omega

/-- When every attempt fails, the loop exhausts all `r` attempts and
returns no feed. -/
theorem fetch_retry_loop_all_fail (oracle : Nat → AttemptOutcome) :
    ∀ (r a : Nat) (le : Option String),
      (∀ j, j < r → attemptFails (oracle (a + j)) = true) →
      (fetch_retry_loop oracle a le r).attempts = r ∧
      (fetch_retry_loop oracle a le r).feed_data = none := by
  intro r
  induction r with
  | zero => intro a le _; exact ⟨rfl, rfl⟩
  | succ r ih =>
    intro a le hfail
    have h0 : attemptFails (oracle a) = true := by
      simpa using hfail 0 (by omega)
    rw [fetch_retry_loop_fail oracle a le r h0]
    by_cases hr : r = 0
    · subst hr
      simp
    · rw [if_neg hr]
      dsimp only
      have hfail' : ∀ j, j < r →
          attemptFails (oracle (a + 1 + j)) = true := by
        intro j hj
        have := hfail (j + 1) (by omega)
        rwa [show a + (j + 1) = a + 1 + j by omega] at this
      obtain ⟨ha, hf⟩ :=
        ih (a + 1) (some (attemptError (oracle a) a)) hfail'
      exact ⟨by omega, by simpa using hf⟩

/-- Source used in the fetch counterexamples: an RSS source with a feed
URL configured. -/
def c2Source : SourceCfg where
  id := 4
  url := pys "https://example.com"
  rss_url := pys "https://example.com/feed.xml"

/-- Attempt oracle whose first attempt is an HTTP 404 client error and
whose second attempt succeeds. -/
def c2Oracle : Nat → AttemptOutcome :=
  fun i => if i = 0 then .httpError 404 else .ok []

/-- Counterexample to C2: `raise_for_status` raises `HTTPError`, a
`requests.RequestException`, which the retry loop catches like any other
failure — after a first-attempt 404 the fetcher performs a second attempt
and even succeeds, instead of surfacing the 4xx immediately. -/
theorem c2_counterexample_4xx_is_retried :
    c2Oracle 0 = .httpError 404 ∧
    (fetch_feed c2Source c2Oracle 3 0).attempts = 2 ∧
    (fetch_feed c2Source c2Oracle 3 0).success = true := by
  refine ⟨by decide, ?_, ?_⟩ <;> decide

/-- C2 (amended): the fetcher does not distinguish failure kinds — every
failed attempt (timeout, connection error, or any HTTP error status,
4xx included) is retried until an attempt succeeds or `MAX_RETRIES`
attempts are exhausted; only then does the error surface. -/
theorem c2_retry_policy_amended :
    (∀ (oracle : Nat → AttemptOutcome) (k mr : Nat) (feed : List Entry),
      (∀ j, j < k → attemptFails (oracle j) = true) →
      oracle k = .ok feed → k < mr →
      (fetch_retry_loop oracle 0 none mr).attempts = k + 1 ∧
      (fetch_retry_loop oracle 0 none mr).feed_data = some feed) ∧
    (∀ (oracle : Nat → AttemptOutcome) (mr : Nat),
      (∀ j, j < mr → attemptFails (oracle j) = true) →
      (fetch_retry_loop oracle 0 none mr).attempts = mr ∧
      (fetch_retry_loop oracle 0 none mr).feed_data = none) := by
  constructor
  · intro oracle k mr feed hfail hok hk
    obtain ⟨h1, h2, _⟩ :=
      fetch_retry_loop_first_success oracle k mr 0 none feed
        (by simpa using hfail) (by simpa using hok) hk
    exact ⟨h1, h2⟩
  · intro oracle mr hfail
    exact fetch_retry_loop_all_fail oracle mr 0 none (by simpa using hfail)

/-- Witness for amended C2: a 404 on the first attempt is retried and the
second attempt succeeds; an always-timing-out oracle exhausts all 3
attempts and returns no feed. -/
theorem c2_retry_policy_amended_witness :
    attemptFails (c2Oracle 0) = true ∧
    (fetch_retry_loop c2Oracle 0 none 3).attempts = 2 ∧
    (fetch_retry_loop c2Oracle 0 none 3).feed_data = some [] ∧
    (fetch_retry_loop (fun _ => .timeout) 0 none 3).attempts = 3 ∧
    (fetch_retry_loop (fun _ => .timeout) 0 none 3).feed_data = none := by
  obtain ⟨h1, h2⟩ :=
    c2_retry_policy_amended.1 c2Oracle 1 3 [] (by decide) (by decide)
      (by decide)
  obtain ⟨h3, h4⟩ :=
    c2_retry_policy_amended.2 (fun _ => .timeout) 3 (by decide)
  exact ⟨by decide, h1, h2, h3, h4⟩

/-- Source used in the C5 theorems: request delay 5 time units. -/
def c5Source : SourceCfg where
  id := 5
  url := pys "https://example.com"
  rss_url := pys "https://example.com/feed.xml"
  request_delay := 5

/-- Attempt oracle failing twice with timeouts, then succeeding. -/
def c5Oracle : Nat → AttemptOutcome :=
  fun i => if i < 2 then .timeout else .ok []

/-- The fetch run used in the C5 counterexample. -/
def c5Run : FetchResult := fetch_feed c5Source c5Oracle 3 0

/-- Number of courtesy-delay sleeps in a sleep trace. -/
def countCourtesy (l : List SleepEvent) : Nat :=
  (l.filter (fun e => match e with
    | .courtesy _ => true
    | .backoff _ => false)).length

/-- Counterexample to C5: with a configured delay of 5, a fetch that
fails twice and succeeds on the third attempt sleeps
`[courtesy 5, backoff 1, backoff 2]` — the courtesy delay is applied
exactly once (before the first attempt), not before each of the three
attempts. -/
theorem c5_counterexample_delay_applied_once :
    c5Run.success = true ∧ c5Run.attempts = 3 ∧
    c5Run.sleeps =
      [.courtesy 5, .backoff 1, .backoff 2] ∧
    countCourtesy c5Run.sleeps = 1 ∧
    ¬ countCourtesy c5Run.sleeps = c5Run.attempts := by
  refine ⟨?_, ?_, ?_, ?_, ?_⟩ <;> decide

/-- C5 (amended): the configured inter-request delay is applied exactly
once per fetch, before the first attempt only; the backoff delay doubles
each attempt starting at 1 time unit, so a fetch failing twice and
succeeding on the third attempt succeeds after exactly the two backoff
sleeps 1 and 2. -/
theorem c5_backoff_amended (source : SourceCfg)
    (oracle : Nat → AttemptOutcome) (mr now : Nat) (feed : List Entry)
    (hurl : source.fetch_url.isEmpty = false)
    (h0 : attemptFails (oracle 0) = true)
    (h1 : attemptFails (oracle 1) = true)
    (h2 : oracle 2 = .ok feed)
    (hmr : 3 ≤ mr) :
    (fetch_feed source oracle mr now).success = true ∧
    (fetch_feed source oracle mr now).attempts = 3 ∧
    (fetch_feed source oracle mr now).sleeps =
      (if source.request_delay ≠ 0 then
        [SleepEvent.courtesy source.request_delay]
       else []) ++ [SleepEvent.backoff 1, SleepEvent.backoff 2] := by
  have hfail : ∀ j, j < 2 → attemptFails (oracle (0 + j)) = true := by
    intro j hj
    match j, hj with
    | 0, _ => simpa using h0
    | 1, _ => simpa using h1
  obtain ⟨ha, hf, hs⟩ :=
    fetch_retry_loop_first_success oracle 2 mr 0 none feed hfail
      (by simpa using h2) (by omega)
  unfold fetch_feed
  rw [hurl]
  simp only [Bool.false_eq_true, if_false]
  rw [hf]
  dsimp only
  refine ⟨rfl, ha, ?_⟩
  rw [hs]
  congr 1

/-- Witness for amended C5 at the concrete fetch run: delay 5 is slept
once before the first attempt, followed by backoffs 1 and 2, and the
fetch succeeds on the third attempt. -/
theorem c5_backoff_amended_witness :
    (fetch_feed c5Source c5Oracle 3 0).success = true ∧
    (fetch_feed c5Source c5Oracle 3 0).attempts = 3 ∧
    (fetch_feed c5Source c5Oracle 3 0).sleeps =
      (if c5Source.request_delay ≠ 0 then
        [SleepEvent.courtesy c5Source.request_delay]
       else []) ++ [SleepEvent.backoff 1, SleepEvent.backoff 2] :=
  c5_backoff_amended c5Source c5Oracle 3 0 [] (by decide) (by decide)
    (by decide) (by decide) (by decide)

/-! ### Summarization service (`app/services/summarization.py`)

The router is embedded with an explicit context: `openai_available`
models `self.openai_client`/`OPENAI_API_KEY`, `hf_loaded` whether a model
ends up in `self.local_models` after a load attempt, and the two
`*_result` oracles give the backend responses (`.error` models an
exception inside the backend call, `.ok none` an empty response).  Every
actual backend invocation (`asyncio.to_thread(...)`) is recorded in an
explicit call trace, which is what lets a theorem say a request was
rejected before any backend call. -/

inductive BackendType where
  | openai
  | huggingface
deriving DecidableEq

structure ModelConfig where
  model_name : String
  max_input_length : Nat
  max_output_length : Nat
  min_output_length : Nat
  type : BackendType
deriving DecidableEq

/-- `self.model_configs` (summarization.py lines 27-63). -/
def model_configs : List (String × ModelConfig) :=
  [("bart-large-cnn",
    ⟨"facebook/bart-large-cnn", 1024, 150, 50, .huggingface⟩),
   ("pegasus-xsum", ⟨"google/pegasus-xsum", 512, 128, 32, .huggingface⟩),
   ("t5-small", ⟨"t5-small", 512, 150, 50, .huggingface⟩),
   ("gpt-3.5-turbo", ⟨"gpt-3.5-turbo", 4000, 200, 50, .openai⟩),
   ("gpt-4", ⟨"gpt-4", 8000, 300, 50, .openai⟩)]

/-- Dict lookup `self.model_configs.get(key)`. -/
def configGet (key : String) : Option ModelConfig :=
  (model_configs.find? (fun p => p.1 = key)).map Prod.snd

/-- The summarization result triple `(success, summary, error_message)`. -/
abbrev SummResult := Bool × Option PyStr × Option String

/-- One recorded backend invocation. -/
inductive BackendCall where
  | openaiCall (model : String) (prompt : PyStr)
  | hfCall (model : String) (content : PyStr)
deriving DecidableEq

structure SummCtx where
  default_summary_model : String := "facebook/bart-large-cnn"
  openai_available : Bool := false
  hf_loaded : String → Bool := fun _ => true
  openai_result : String → PyStr → Except String (Option PyStr) :=
    fun _ _ => .ok none
  hf_result : String → PyStr → Except String (Option PyStr) :=
    fun _ _ => .ok none

structure SummArticle where
  id : Nat
  title : PyStr
  content : PyStr
  language : String
deriving DecidableEq

/-- Fuel-bounded helper for `pyReplace`. -/
def pyReplaceAux (pat sub : PyStr) : Nat → PyStr → PyStr
  | 0, s => s
  | _ + 1, [] => []
  | fuel + 1, c :: rest =>
    if !pat.isEmpty && pat.isPrefixOf (c :: rest) then
      sub ++ pyReplaceAux pat sub fuel ((c :: rest).drop pat.length)
    else
      c :: pyReplaceAux pat sub fuel rest

/-- Python `str.replace(pat, sub)` (for non-empty patterns). -/
def pyReplace (s pat sub : PyStr) : PyStr := pyReplaceAux pat sub s.length s

/-- `_clean_content` (summarization.py lines 326-349): whitespace
normalization and strip.  The regex removal of bracketed citations,
wire-service tags, and read-more/subscribe boilerplate is not re-modelled:
no claim under verification evaluates it, and on text free of those
patterns it is the identity. -/
def clean_content (content : PyStr) : PyStr :=
  if content.isEmpty then [] else pyStrip (collapseWs content)

/-- `_prepare_content_for_summarization` (summarization.py lines
296-324): clean, prefix the title, and truncate to the model's maximum
input length in words (falling back to the bart config for an unknown
model). -/
def prepare_content (content title : PyStr) (model_name : String) :
    PyStr :=
  let config := (configGet model_name).getD
    ⟨"facebook/bart-large-cnn", 1024, 150, 50, .huggingface⟩
  let cleaned := clean_content content
  let full_text := title ++ pys "\n\n" ++ cleaned
  if (pySplitWs full_text).length > config.max_input_length then
    pyJoinSpace ((pySplitWs full_text).take config.max_input_length)
  else full_text

/-- `_get_default_prompt` (summarization.py lines 380-390), shown here
for the English template; the other four language templates differ only
in their fixed instruction text and every non-listed language falls back
to English. -/
def get_default_prompt (content : PyStr) (language : String) : PyStr :=
  let en := pys ("Please provide a concise summary of this editorial " ++
    "article in 2-3 sentences. Focus on the main argument, key points, " ++
    "and conclusion:\n\n") ++ content
  if language = "en" ∨ language = "hi" ∨ language = "bn" ∨
      language = "ta" ∨ language = "mr" then
    (if language = "en" then en
     else pys ("summary instruction (" ++ language ++ "):\n\n") ++ content)
  else en

/-- `_summarize_with_openai` (summarization.py lines 202-252), returning
the result and the backend calls made. -/
def summarize_with_openai (ctx : SummCtx) (content : PyStr)
    (model_name : String) (custom_prompt : Option PyStr)
    (language : String) : SummResult × List BackendCall :=
  if ctx.openai_available = false then
    ((false, none, some "OpenAI client not available"), [])
  else
    let prompt :=
      match custom_prompt with
      | some p => pyReplace p (pys "\x7bcontent\x7d") content
      | none => get_default_prompt content language
    match ctx.openai_result model_name prompt with
    | .ok (some summary) =>
      ((true, some (pyStrip summary), none), [.openaiCall model_name prompt])
    | .ok none =>
      ((false, none, some "Empty response from OpenAI"),
       [.openaiCall model_name prompt])
    | .error e =>
      ((false, none, some ("OpenAI summarization error: " ++ e)),
       [.openaiCall model_name prompt])

/-- `_summarize_with_huggingface` (summarization.py lines 254-294). -/
def summarize_with_huggingface (ctx : SummCtx) (content : PyStr)
    (model_name : String) : SummResult × List BackendCall :=
  if ctx.hf_loaded model_name = false then
    ((false, none, some ("Failed to load model: " ++ model_name)), [])
  else
    match ctx.hf_result model_name content with
    | .ok (some summary) =>
      ((true, some summary, none), [.hfCall model_name content])
    | .ok none =>
      ((false, none, some "Empty result from Hugging Face model"),
       [.hfCall model_name content])
    | .error e =>
      ((false, none, some ("Hugging Face summarization error: " ++ e)),
       [.hfCall model_name content])

/-- `_post_process_summary` (summarization.py lines 351-378). -/
def post_process_summary (summary : PyStr) : PyStr :=
  if summary.isEmpty then []
  else
    let s1 := pyStrip summary
    let artifacts := [pys "Summary:", pys "In summary,",
      pys "To summarize,", pys "In conclusion,"]
    let s2 := artifacts.foldl
      (fun acc art =>
        if pyStartsWith art acc then pyStrip (acc.drop art.length)
        else acc) s1
    let s3 :=
      if !s2.isEmpty &&
          !(match s2.getLast? with
            | some c => c = '.' || c = '!' || c = '?'
            | none => false) then
        s2 ++ ['.']
      else s2
    collapseWs s3

/-- `summarize_article` (summarization.py lines 128-200): default-model
resolution, the minimum-content-length guard, content preparation, the
unknown-model guard, backend dispatch, and post-processing.  Returns the
result and the list of backend calls made. -/
def summarize_article (ctx : SummCtx) (article : SummArticle)
    (model_name? : Option String) (custom_prompt : Option PyStr) :
    SummResult × List BackendCall :=
  let mn0 := model_name?.getD ""
  let model_name :=
    if mn0 = "" then
      let d := (ctx.default_summary_model.splitOn "/").getLastD
        ctx.default_summary_model
      if (configGet d).isSome then d else "bart-large-cnn"
    else mn0
  if article.content.isEmpty = true ∨
      (pyStrip article.content).length < 100 then
    ((false, none, some "Article content too short for summarization"), [])
  else
    let prepared := prepare_content article.content article.title
      model_name
    match configGet model_name with
    | none => ((false, none, some ("Unknown model: " ++ model_name)), [])
    | some config =>
      let rc :=
        if config.type = .openai then
          summarize_with_openai ctx prepared model_name custom_prompt
            article.language
        else
          summarize_with_huggingface ctx prepared model_name
      match rc with
      | ((success, summary?, error), calls) =>
        if success &&
            (match summary? with
             | some s => !s.isEmpty
             | none => false) then
          ((true, some (post_process_summary (summary?.getD [])), none),
           calls)
        else ((false, none, error), calls)

/-- C8: a summarization request whose content is empty or shorter than
100 characters after stripping, or whose requested model key is unknown
to the router, is rejected with a descriptive error before any backend
call is made (the recorded backend-call trace is empty). -/
theorem c8_reject_before_backend_call (ctx : SummCtx) (a : SummArticle)
    (m : String) (cp : Option PyStr) :
    (a.content.isEmpty = true ∨ (pyStrip a.content).length < 100 →
      ∀ mn? : Option String,
      summarize_article ctx a mn? cp =
        ((false, none, some "Article content too short for summarization"),
         [])) ∧
    (m ≠ "" → configGet m = none →
      ¬(a.content.isEmpty = true ∨ (pyStrip a.content).length < 100) →
      summarize_article ctx a (some m) cp =
        ((false, none, some ("Unknown model: " ++ m)), [])) := by
  constructor
  · intro h mn?
    simp only [summarize_article]
    rw [if_pos h]
  · intro hm hcfg hlen
    simp only [summarize_article, Option.getD_some]
    rw [if_neg hm, if_neg hlen, hcfg]

/-- Default summarization context for the C8 witness. -/
def c8Ctx : SummCtx := {}

/-- An article whose content is comfortably over the 100-character
threshold. -/
def c8LongArticle : SummArticle where
  id := 1
  title := pys "A long enough article"
  content := List.replicate 120 'x'
  language := "en"

/-- An article whose content is below the 100-character threshold. -/
def c8ShortArticle : SummArticle where
  id := 2
  title := pys "Short"
  content := pys "too short"
  language := "en"

/-- Witness for C8: the short article and the unknown model are both
rejected with the descriptive error and an empty backend-call trace. -/
theorem c8_reject_before_backend_call_witness :
    (pyStrip c8ShortArticle.content).length < 100 ∧
    summarize_article c8Ctx c8ShortArticle (some "bart-large-cnn") none =
      ((false, none, some "Article content too short for summarization"),
       []) ∧
    configGet "no-such-model" = none ∧
    summarize_article c8Ctx c8LongArticle (some "no-such-model") none =
      ((false, none, some ("Unknown model: " ++ "no-such-model")), []) :=
  ⟨by decide,
   (c8_reject_before_backend_call c8Ctx c8ShortArticle "bart-large-cnn"
      none).1 (Or.inr (by decide)) (some "bart-large-cnn"),
   by decide,
   (c8_reject_before_backend_call c8Ctx c8LongArticle "no-such-model"
      none).2 (by decide) (by decide) (by decide)⟩

/-! ### Batch summarization (`batch_summarize_articles`,
summarization.py lines 392-448)

Concurrency collapses in the embedding: each article carries the outcome
its `summarize_article` task would produce — either a returned result
triple or a raised exception, which `asyncio.gather(...,
return_exceptions=True)` hands back as a value.  The `crash` parameter
models an orchestration-level exception thrown while processing batch
index `k` (before that batch's results are recorded), which lands in the
`except` branch; the `except` branch back-fills a generic failure for
every article id missing from `results`.  The results dict is modelled as
an insertion-ordered association list with Python-dict assignment
semantics. -/

inductive ItemOutcome where
  | ret (r : SummResult)
  | exn (msg : String)
deriving DecidableEq

structure BatchArticle where
  id : String
  outcome : ItemOutcome
deriving DecidableEq

/-- `results[str(article_id)] = ...` on a Python dict: update in place
when the key exists, else append. -/
def dictInsert (d : List (String × SummResult)) (k : String)
    (v : SummResult) : List (String × SummResult) :=
  if (d.find? (fun p => p.1 = k)).isSome then
    d.map (fun p => if p.1 = k then (k, v) else p)
  else d ++ [(k, v)]

/-- How a gathered task outcome is recorded (summarization.py lines
432-437): an exception value becomes `(False, None, str(result))`. -/
def gather_result : ItemOutcome → SummResult
  | .ret r => r
  | .exn m => (false, none, some m)

/-- Record one article's gathered outcome into the results dict. -/
def insertResult (d : List (String × SummResult)) (a : BatchArticle) :
    List (String × SummResult) :=
  dictInsert d a.id (gather_result a.outcome)

/-- The generic failure used by the back-fill loop (summarization.py
line 446). -/
def genericFail (msg : String) : SummResult :=
  (false, none, some ("Batch processing error: " ++ msg))

/-- The `except` branch (summarization.py lines 441-446): add a generic
failure for every article whose id is not yet in the results. -/
def backfill (res : List (String × SummResult))
    (articles : List BatchArticle) (msg : String) :
    List (String × SummResult) :=
  articles.foldl
    (fun d a =>
      if (d.find? (fun p => p.1 = a.id)).isSome then d
      else d ++ [(a.id, genericFail msg)]) res

/-- The batch loop: process batches in order, recording each batch's
gathered results; an orchestration crash at batch index `k` stops the
loop and surfaces the exception message. -/
def runBatches : List (List BatchArticle) → Nat → Option (Nat × String) →
    List (String × SummResult) →
    List (String × SummResult) × Option String
  | [], _, _, acc => (acc, none)
  | b :: rest, idx, crash, acc =>
    match crash with
    | some (k, msg) =>
      if k = idx then (acc, some msg)
      else runBatches rest (idx + 1) (some (k, msg)) (b.foldl insertResult acc)
    | none => runBatches rest (idx + 1) none (b.foldl insertResult acc)

/-- `batch_summarize_articles(articles, model_name, batch_size)`
(summarization.py lines 392-448).  A falsy (zero) batch size is replaced
by `settings.SUMMARY_BATCH_SIZE` (`dflt`); `range(0, n, step)` raises for
step 0 (back-filling everything via the `except` branch) and is empty for
negative step (returning an empty dict). -/
def batch_summarize_articles (articles : List BatchArticle)
    (batchSize : Int) (dflt : Int) (crash : Option (Nat × String)) :
    List (String × SummResult) :=
  let bs := if batchSize = 0 then dflt else batchSize
  if bs = 0 then backfill [] articles "range() arg 3 must not be zero"
  else if bs < 0 then []
  else
    match runBatches (chunksOf bs.toNat articles) 0 crash [] with
    | (res, none) => res
    | (res, some msg) => backfill res articles msg

theorem chunksOf_flatten (n : Nat) (l : List α) :
    (chunksOf n l).flatten = l := by
  induction l using chunksOf.induct n with
  | case1 => simp [chunksOf]
  | case2 x xs ih =>
    rw [chunksOf]
    rw [List.flatten_cons, ih, List.cons_append, List.take_append_drop]

theorem runBatches_none (batches : List (List BatchArticle)) :
    ∀ (idx : Nat) (acc : List (String × SummResult)),
    runBatches batches idx none acc =
      (batches.flatten.foldl insertResult acc, none) := by
  induction batches with
  | nil => intro idx acc; rfl
  | cons b rest ih =>
    intro idx acc
    rw [runBatches, ih, List.flatten_cons, List.foldl_append]

theorem foldl_insertResult_fresh (arts : List BatchArticle) :
    ∀ (acc : List (String × SummResult)),
    (∀ a ∈ arts, ∀ p ∈ acc, p.1 ≠ a.id) →
    (arts.map (fun a => a.id)).Nodup →
    arts.foldl insertResult acc =
      acc ++ arts.map (fun a => (a.id, gather_result a.outcome)) := by
  induction arts with
  | nil => intro acc _ _; simp
  | cons a t ih =>
    intro acc hfresh hnodup
    have hfind : acc.find? (fun p => p.1 = a.id) = none := by
      rw [List.find?_eq_none]
      intro p hp
      simpa using hfresh a (by simp) p hp
    have hstep : insertResult acc a =
        acc ++ [(a.id, gather_result a.outcome)] := by
      unfold insertResult dictInsert
      rw [hfind]
      rfl
    rw [List.foldl_cons, hstep,
      ih (acc ++ [(a.id, gather_result a.outcome)]) ?_ ?_]
    · simp
    · intro b hb p hp
      rcases List.mem_append.mp hp with hp | hp
      · exact hfresh b (by simp [hb]) p hp
      · simp only [List.mem_singleton] at hp
        subst hp
      
        simp only [List.map_cons, List.nodup_cons] at hnodup
        intro hcontra
        have hmem : b.id ∈ t.map (fun a => a.id) :=
          List.mem_map_of_mem _ hb
        exact hnodup.1 (by
          rw [show a.id = b.id from hcontra]
          exact hmem)
    · simp only [List.map_cons, List.nodup_cons] at hnodup
      exact hnodup.2

theorem backfill_all_present (P : List BatchArticle) :
    ∀ (res : List (String × SummResult)) (msg : String),
    (∀ a ∈ P, (res.find? (fun p => p.1 = a.id)).isSome = true) →
    backfill res P msg = res := by
  induction P with
  | nil => intro res msg _; rfl
  | cons a t ih =>
    intro res msg hpresent
    unfold backfill
    rw [List.foldl_cons, if_pos (by simpa using hpresent a (by simp))]
    exact ih res msg (fun b hb => hpresent b (by simp [hb]))

theorem backfill_all_fresh (Q : List BatchArticle) :
    ∀ (res : List (String × SummResult)) (msg : String),
    (∀ a ∈ Q, ∀ p ∈ res, p.1 ≠ a.id) →
    (Q.map (fun a => a.id)).Nodup →
    backfill res Q msg =
      res ++ Q.map (fun a => (a.id, genericFail msg)) := by
  induction Q with
  | nil => intro res msg _ _; simp [backfill]
  | cons a t ih =>
    intro res msg hfresh hnodup
    have hfind : res.find? (fun p => p.1 = a.id) = none := by
      rw [List.find?_eq_none]
      intro p hp
      simpa using hfresh a (by simp) p hp
    unfold backfill
    rw [List.foldl_cons, if_neg (by simp [hfind])]
    have := ih (res ++ [(a.id, genericFail msg)]) msg ?_ ?_
    · unfold backfill at this
      rw [this]
      simp
    · intro b hb p hp
      rcases List.mem_append.mp hp with hp | hp
      · exact hfresh b (by simp [hb]) p hp
      · simp only [List.mem_singleton] at hp
        subst hp
        simp only [List.map_cons, List.nodup_cons] at hnodup
        intro hcontra
        have hmem : b.id ∈ t.map (fun a => a.id) :=
          List.mem_map_of_mem _ hb
        exact hnodup.1 (by
          rw [show a.id = b.id from hcontra]
          exact hmem)
    · simp only [List.map_cons, List.nodup_cons] at hnodup
      exact hnodup.2

theorem backfill_append (P Q : List BatchArticle)
    (res : List (String × SummResult)) (msg : String) :
    backfill res (P ++ Q) msg = backfill (backfill res P msg) Q msg := by
  unfold backfill
  rw [List.foldl_append]

theorem runBatches_cases (batches : List (List BatchArticle)) :
    ∀ (idx k : Nat) (msg : String)
      (acc : List (String × SummResult)),
    (∃ j, j ≤ batches.length ∧
      runBatches batches idx (some (k, msg)) acc =
        (((batches.take j).flatten).foldl insertResult acc, some msg)) ∨
    runBatches batches idx (some (k, msg)) acc =
      (batches.flatten.foldl insertResult acc, none) := by
  induction batches with
  | nil => intro idx k msg acc; right; rfl
  | cons b rest ih =>
    intro idx k msg acc
    by_cases hk : k = idx
    · left
      exact ⟨0, by omega, by rw [runBatches]; simp [hk]⟩
    · have hstep : runBatches (b :: rest) idx (some (k, msg)) acc =
          runBatches rest (idx + 1) (some (k, msg))
            (b.foldl insertResult acc) := by
        rw [runBatches]
        simp [hk]
      rcases ih (idx + 1) k msg (b.foldl insertResult acc)
        with ⟨j, hj, heq⟩ | heq
      · left
        refine ⟨j + 1, by simp; omega, ?_⟩
        rw [hstep, heq, List.take_cons (by omega), List.flatten_cons,
          List.foldl_append]
        simp
      · right
        rw [hstep, heq, List.flatten_cons, List.foldl_append]

/-- C4 (amended): for distinct article ids and every positive batch size,
the result map has exactly one entry per input article id (in input
order); without an orchestration crash every entry is exactly that
article's own gathered outcome — a per-item exception yields a failure in
that slot only — and under an orchestration crash the articles of the
completed batches keep their own results while every never-attempted
article is back-filled with the generic failure rather than omitted. -/
theorem c4_batch_results_complete (articles : List BatchArticle)
    (bs dflt : Int) (crash : Option (Nat × String)) (k : Nat)
    (msg : String) (hbs : 1 ≤ bs)
    (hnodup : (articles.map (fun a => a.id)).Nodup) :
    (batch_summarize_articles articles bs dflt crash).map Prod.fst =
      articles.map (fun a => a.id) ∧
    batch_summarize_articles articles bs dflt none =
      articles.map (fun a => (a.id, gather_result a.outcome)) ∧
    ∃ P Q, articles = P ++ Q ∧
      batch_summarize_articles articles bs dflt (some (k, msg)) =
        P.map (fun a => (a.id, gather_result a.outcome)) ++
          Q.map (fun a => (a.id, genericFail msg)) := by
  have hred : ∀ cr, batch_summarize_articles articles bs dflt cr =
      (match runBatches (chunksOf bs.toNat articles) 0 cr [] with
       | (res, none) => res
       | (res, some m) => backfill res articles m) := by
    intro cr
    unfold batch_summarize_articles
    rw [if_neg (by omega), if_neg (by omega), if_neg (by omega)]
  have hnone : batch_summarize_articles articles bs dflt none =
      articles.map (fun a => (a.id, gather_result a.outcome)) := by
    rw [hred none, runBatches_none, chunksOf_flatten,
      foldl_insertResult_fresh articles [] (by simp) hnodup]
    simp
  have hcrash : ∀ (k' : Nat) (msg' : String), ∃ P Q,
      articles = P ++ Q ∧
      batch_summarize_articles articles bs dflt (some (k', msg')) =
        P.map (fun a => (a.id, gather_result a.outcome)) ++
          Q.map (fun a => (a.id, genericFail msg')) := by
    intro k' msg'
    rcases runBatches_cases (chunksOf bs.toNat articles) 0 k' msg' []
      with ⟨j, hj, heq⟩ | heq
    · set P := ((chunksOf bs.toNat articles).take j).flatten with hP
      set Q := ((chunksOf bs.toNat articles).drop j).flatten with hQ
      have hPQ : articles = P ++ Q := by
        rw [hP, hQ, ← List.flatten_append, List.take_append_drop,
          chunksOf_flatten]
      have hsplit := hnodup
      rw [hPQ, List.map_append, List.nodup_append] at hsplit
      obtain ⟨hPn, hQn, hdisj⟩ := hsplit
      have hres := foldl_insertResult_fresh P [] (by simp) hPn
      refine ⟨P, Q, hPQ, ?_⟩
      rw [hred (some (k', msg')), heq]
      dsimp only
      rw [hres]
      simp only [List.nil_append]
      have hpresent : ∀ a ∈ P,
          (((P.map (fun a => (a.id, gather_result a.outcome))).find?
            (fun p => p.1 = a.id)).isSome) = true := by
        intro a ha
        rw [List.find?_isSome]
        refine ⟨(a.id, gather_result a.outcome), ?_, by simp⟩
        exact List.mem_map_of_mem _ ha
      have hfreshQ : ∀ a ∈ Q,
          ∀ p ∈ P.map (fun a => (a.id, gather_result a.outcome)),
          p.1 ≠ a.id := by
        intro a ha p hp
        rcases List.mem_map.mp hp with ⟨b, hb, rfl⟩
        intro hcontra
        exact hdisj (by
          rw [← show b.id = a.id from hcontra]
          exact List.mem_map_of_mem _ hb) (List.mem_map_of_mem _ ha)
      rw [hPQ, backfill_append,
        backfill_all_present P _ msg' hpresent,
        backfill_all_fresh Q _ msg' hfreshQ hQn]
    · refine ⟨articles, [], by simp, ?_⟩
      rw [hred (some (k', msg')), heq]
      dsimp only
      rw [chunksOf_flatten,
        foldl_insertResult_fresh articles [] (by simp) hnodup]
      simp
  refine ⟨?_, hnone, hcrash k msg⟩
  match crash with
  | none =>
    rw [hnone, List.map_map]
    exact List.map_congr_left fun a _ => rfl
  | some (k', msg') =>
    obtain ⟨P, Q, hPQ, heq⟩ := hcrash k' msg'
    rw [heq, hPQ]
    simp only [List.map_append, List.map_map]
    congr 1

/-- Articles used in the C4 theorems: the second one's task raises. -/
def c4Articles : List BatchArticle :=
  [⟨"a1", .ret (true, some (pys "s1"), none)⟩,
   ⟨"a2", .exn "boom"⟩,
   ⟨"a3", .ret (true, some (pys "s3"), none)⟩]

/-- Counterexample to C4 as stated for "every batch size": with batch
size -1 (an int is a legal argument and -1 is truthy, so it is not
replaced by the default), `range(0, len(articles), -1)` is empty, no
batch runs, no exception is raised, and the returned map is empty — no
article id receives an entry. -/
theorem c4_counterexample_negative_batch_size :
    batch_summarize_articles c4Articles (-1) 4 none = [] ∧
    (batch_summarize_articles c4Articles (-1) 4 none).find?
      (fun p => p.1 = "a1") = none :=
  ⟨by decide, by decide⟩

/-- Witness for amended C4 at three articles and batch size 2: the keys
are exactly the input ids even under an orchestration crash, and without
a crash each article (including the one whose task raised) gets exactly
its own outcome. -/
theorem c4_batch_results_complete_witness :
    (c4Articles.map (fun a => a.id)).Nodup ∧
    (batch_summarize_articles c4Articles 2 4 (some (1, "crash"))).map
      Prod.fst = c4Articles.map (fun a => a.id) ∧
    batch_summarize_articles c4Articles 2 4 none =
      c4Articles.map (fun a => (a.id, gather_result a.outcome)) := by
  refine ⟨by decide, ?_, ?_⟩
  · exact (c4_batch_results_complete c4Articles 2 4 (some (1, "crash")) 1
      "crash" (by decide) (by decide)).1
  · exact (c4_batch_results_complete c4Articles 2 4 none 1 "crash"
      (by decide) (by decide)).2.1
